import Mathlib

/-!
Verification of the authenticated request layer of the mcpx-cli client
(src/main.go): credential storage and expiration, request header
resolution, login dispatch, response-shape normalization with id
recovery from registry metadata, the detailed-listing loop, and the
local authentication guard of the publish/update commands.

The Go functions are embedded shallowly: the credential file is a state
of type CredFile, HTTP exchanges are passed in as explicit reply values,
and every function returns its outcome (error value, state after, and a
count of the requests it issued) instead of performing effects.
-/

namespace Mcpx

deriving instance DecidableEq for Except

/-- Go's strings.HasPrefix(s, pre): true iff the characters of pre are
an initial segment of the characters of s. -/
def hasPrefixGo (s pre : String) : Bool :=
  List.isPrefixOf pre.data s.data

/-- Persisted auth configuration (struct AuthConfig, main.go:46-51):
fields token, method, domain, expires_at. The Go zero value has every
string empty and expiresAt 0. -/
structure AuthConfig where
  token : String
  method : String
  domain : String
  expiresAt : Int
  deriving Repr, DecidableEq

/-- The zero-value AuthConfig: what `var config AuthConfig` starts as. -/
def AuthConfig.zero : AuthConfig :=
  { token := "", method := "", domain := "", expiresAt := 0 }

/-- State of the credential file `<home>/.mcpx-cli-config.json`.
`stored c` is the file as saveAuthConfig writes it (a JSON document that
unmarshals back to exactly `c`, since every field of AuthConfig is a
scalar); `corrupt` is an existing file whose bytes do not unmarshal;
`unreadable` is an existing file whose read fails with an error other
than IsNotExist. -/
inductive CredFile where
  | absent
  | stored (config : AuthConfig)
  | corrupt
  | unreadable
  deriving Repr, DecidableEq

/-- The permission bits saveAuthConfig passes to os.WriteFile
(main.go:222, `os.WriteFile(configPath, data, 0600)`). -/
def configFileMode : Nat := 0o600

/-- saveAuthConfig (main.go:210-223): marshals the config and writes it
to the config path in place with a single os.WriteFile (truncate the
existing file, then write the new bytes). There is no write-then-rename
step, so a save interrupted after the truncation leaves a partial body
on disk; a strict prefix of the marshalled JSON object is not valid
JSON, hence `corrupt`. An uninterrupted save leaves `stored config`. -/
def saveAuthConfig (_fs : CredFile) (config : AuthConfig) (interrupted : Bool) : CredFile :=
  if interrupted then CredFile.corrupt else CredFile.stored config

/-- loadAuthConfig (main.go:225-252): a missing file is not an error and
yields the zero config; a read failure other than IsNotExist and an
unmarshal failure are errors; a stored config is discarded for the zero
config when `config.ExpiresAt > 0 && time.Now().Unix() > config.ExpiresAt`
(main.go:247) and returned unchanged otherwise. -/
def loadAuthConfig (fs : CredFile) (now : Int) : Except String AuthConfig :=
  match fs with
  | CredFile.absent => Except.ok AuthConfig.zero
  | CredFile.unreadable => Except.error "failed to read config"
  | CredFile.corrupt => Except.error "failed to unmarshal config"
  | CredFile.stored config =>
      if config.expiresAt > 0 ∧ now > config.expiresAt then Except.ok AuthConfig.zero
      else Except.ok config

/-- clearAuthConfig (main.go:254-266): os.Remove on the config path; a
failure satisfying os.IsNotExist (the file is already absent) is
swallowed and the call succeeds. The second component is the returned
error, `none` meaning nil. -/
def clearAuthConfig (fs : CredFile) : CredFile × Option String :=
  match fs with
  | CredFile.absent => (CredFile.absent, none)
  | _ => (CredFile.absent, none)

/-- The token makeRequest puts in the Authorization header
(main.go:286-293): the explicit token when non-empty, otherwise the
stored config's token where the load error is DISCARDED
(`config, _ := c.loadAuthConfig()`, main.go:289) and the zero config's
empty token is used in its place. -/
def makeRequestToken (token : String) (fs : CredFile) (now : Int) : String :=
  if token ≠ "" then token
  else
    match loadAuthConfig fs now with
    | Except.ok config => config.token
    | Except.error _ => ""

/-- The headers of a request makeRequest builds (main.go:268-298). -/
structure RequestHeaders where
  contentType : Option String
  authorization : Option String
  userAgent : String
  deriving Repr, DecidableEq

/-- makeRequest header assembly (main.go:281-295): Content-Type only
when a body is present, Authorization only when a token resolved, and a
fixed User-Agent. makeRequest never fails on a config-load error: it
always proceeds to issue the request. -/
def makeRequestHeaders (hasBody : Bool) (token : String) (fs : CredFile) (now : Int) :
    RequestHeaders :=
  { contentType := if hasBody then some "application/json" else none
    authorization :=
      let t := makeRequestToken token fs now
      if t ≠ "" then some ("Bearer " ++ t) else none
    userAgent := "mcpx-cli/1.0" }

/-- Authentication method id constants (main.go:36-40). -/
def AuthMethodGitHubOAuth : String := "github-oauth"

/-- Authentication method id constant (main.go:37). -/
def AuthMethodGitHubOIDC : String := "github-oidc"

/-- Authentication method id constant (main.go:38). -/
def AuthMethodAnonymous : String := "anonymous"

/-- Token response of the anonymous auth endpoint (main.go:54-57). -/
structure TokenResponse where
  token : String
  expiresAt : Int
  deriving Repr, DecidableEq

/-- What the anonymous token-issuance endpoint answered: a transport
failure, or a status with the decoded body (`none` when the body does
not decode as a TokenResponse). -/
inductive AnonAuthReply where
  | netErr (msg : String)
  | resp (status : Nat) (body : Option TokenResponse)
  deriving Repr, DecidableEq

/-- loginAnonymous (main.go:326-362): POST the anonymous auth endpoint;
non-200 and decode failures are errors; on success the credential is
built with method anonymous and expiresAt defaulted to now + 1h when
the server omits it, and persisted with saveAuthConfig. Returns the
error (`none` = nil) and the credential file after the call. -/
def loginAnonymous (fs : CredFile) (now : Int) (reply : AnonAuthReply) :
    Option String × CredFile :=
  match reply with
  | AnonAuthReply.netErr msg => (some ("failed to authenticate: " ++ msg), fs)
  | AnonAuthReply.resp status body =>
      if status ≠ 200 then (some "authentication failed with status", fs)
      else
        match body with
        | none => (some "failed to decode token response", fs)
        | some tr =>
            let expiresAt := if tr.expiresAt = 0 then now + 3600 else tr.expiresAt
            (none,
             saveAuthConfig fs
               { token := tr.token, method := AuthMethodAnonymous, domain := ""
                 expiresAt := expiresAt } false)

/-- login (main.go:301-324): a switch on the method id. github-oauth
and github-oidc hit stubs that print a "not yet implemented" notice and
return nil without touching the credential store (main.go:314-324);
anonymous runs the real flow; any other id returns the "unsupported
authentication method" error. -/
def login (authMethod : String) (fs : CredFile) (now : Int) (reply : AnonAuthReply) :
    Option String × CredFile :=
  if authMethod = AuthMethodGitHubOAuth then (none, fs)
  else if authMethod = AuthMethodGitHubOIDC then (none, fs)
  else if authMethod = AuthMethodAnonymous then loginAnonymous fs now reply
  else (some ("unsupported authentication method: " ++ authMethod), fs)

/-- Repository of a server entry (main.go:64-68). -/
structure Repository where
  url : String
  source : String
  id : String
  deriving Repr, DecidableEq

/-- Version detail of a server entry (main.go:70-74). -/
structure VersionDetail where
  version : String
  releaseDate : String
  isLatest : Bool
  deriving Repr, DecidableEq

/-- Canonical server entity (main.go:76-83). -/
structure Server where
  id : String
  name : String
  description : String
  status : String
  repository : Repository
  versionDetail : VersionDetail
  deriving Repr, DecidableEq

/-- A value of the registry-metadata map
(`RegistryMeta map[string]interface{}`, main.go:104): the JSON scalar
kinds the code's type assertion `.(string)` distinguishes. -/
inductive MetaVal where
  | str (s : String)
  | num (n : Int)
  | boolVal (b : Bool)
  | nullVal
  deriving Repr, DecidableEq

/-- Lookup in a registry-metadata map, Go's `meta["id"]`. -/
def metaLookup (m : List (String × MetaVal)) (key : String) : Option MetaVal :=
  (m.find? (fun p => p.1 == key)).map Prod.snd

/-- Wrapper-shape list element (struct ServerWrapper, main.go:102-105):
the entity under a `server` field next to a registry-metadata map;
`none` is Go's nil map. -/
structure ServerWrapper where
  server : Server
  registryMeta : Option (List (String × MetaVal))
  deriving Repr, DecidableEq

/-- Package of a server detail (main.go:158-168); the scalar fields.
The argument and environment-variable lists are carried verbatim by the
code under verification and never read by it, so they are not modelled. -/
structure Package where
  registryName : String
  name : String
  version : String
  wheelUrl : String
  binaryUrl : String
  runtimeHint : String
  deriving Repr, DecidableEq

/-- Remote of a server detail (main.go:170-174); the scalar fields. -/
structure Remote where
  transportType : String
  url : String
  deriving Repr, DecidableEq

/-- ServerDetail (main.go:176-180): a Server plus packages and remotes. -/
structure ServerDetail where
  server : Server
  packages : List Package
  remotes : List Remote
  deriving Repr, DecidableEq

/-- Wrapper-shape detail payload (struct ServerDetailWrapper,
main.go:107-110). -/
structure ServerDetailWrapper where
  server : ServerDetail
  registryMeta : Option (List (String × MetaVal))
  deriving Repr, DecidableEq

/-- Per-element normalization of the wrapper-shape list path
(ListServers, main.go:462-472): when the inner entity's id is empty and
the registry-metadata map is present and holds a string under "id",
adopt it; a top-level id that is already non-empty is kept as is. -/
def normalizeWrapper (w : ServerWrapper) : Server :=
  if w.server.id = "" then
    match w.registryMeta with
    | some m =>
        match metaLookup m "id" with
        | some (MetaVal.str s) => { w.server with id := s }
        | _ => w.server
    | none => w.server
  else w.server

/-- The legacy flat list path (ListServers, main.go:477-483 and
486-492): the decoded servers are taken as they are; the metadata map
is never consulted. -/
def normalizeLegacy (s : Server) : Server := s

/-- The id-recovery step of the wrapper-shape detail path (GetServer
main.go:613-620, and the same lines repeated inside the detailed list
loop, main.go:511-518). -/
def normalizeDetailWrapper (w : ServerDetailWrapper) : ServerDetail :=
  if w.server.server.id = "" then
    match w.registryMeta with
    | some m =>
        match metaLookup m "id" with
        | some (MetaVal.str s) =>
            { w.server with server := { w.server.server with id := s } }
        | _ => w.server
    | none => w.server
  else w.server

/-- The acceptance test of the wrapper-shape decode attempt
(main.go:511 and main.go:613): the decode is used when the inner id is
non-empty or the registry-metadata map is present. -/
def wrapperAccepted (w : ServerDetailWrapper) : Bool :=
  w.server.server.id != "" || w.registryMeta.isSome

/-- What one detail fetch of the detailed list loop produced: a
transport failure, or a status with the two decode attempts the code
runs on the body (ServerDetailWrapper first, legacy ServerDetail
second); `none` marks a failed unmarshal. -/
inductive DetailReply where
  | netErr (msg : String)
  | resp (status : Nat) (wrapperDec : Option ServerDetailWrapper)
      (legacyDec : Option ServerDetail)
  deriving Repr, DecidableEq

/-- The degraded element the loop keeps for a non-200 detail response
(main.go:527-530): the list-level summary with empty packages and
remotes, `ServerDetail{Server: server}`. -/
def summaryDetail (s : Server) : ServerDetail :=
  { server := s, packages := [], remotes := [] }

/-- One iteration of the detailed list loop (ListServers,
main.go:497-532): a transport failure is returned as an error for the
whole call (main.go:499-501); on a 200 response the wrapper decode is
used when accepted, else the legacy decode, else a parse error aborts
the call (main.go:507-524); any other status degrades the element to
its list-level summary (main.go:526-531). -/
def detailStep (fetch : String → DetailReply) (s : Server) : Except String ServerDetail :=
  match fetch s.id with
  | DetailReply.netErr msg =>
      Except.error ("failed to get details for server " ++ s.id ++ ": " ++ msg)
  | DetailReply.resp status wrapperDec legacyDec =>
      if status = 200 then
        match wrapperDec with
        | some w =>
            if wrapperAccepted w then Except.ok (normalizeDetailWrapper w)
            else
              match legacyDec with
              | some d => Except.ok d
              | none =>
                  Except.error ("failed to parse detail response for server " ++ s.id)
        | none =>
            match legacyDec with
            | some d => Except.ok d
            | none =>
                Except.error ("failed to parse detail response for server " ++ s.id)
      else Except.ok (summaryDetail s)

/-- The detailed list loop (ListServers, main.go:495-532): elements are
fetched sequentially and appended; the first error returns from the
whole function. -/
def detailLoop (fetch : String → DetailReply) : List Server → Except String (List ServerDetail)
  | [] => Except.ok []
  | s :: rest =>
      match detailStep fetch s with
      | Except.error e => Except.error e
      | Except.ok d =>
          match detailLoop fetch rest with
          | Except.error e => Except.error e
          | Except.ok tail => Except.ok (d :: tail)

/-- The element the loop keeps for a fetch that answered (no transport
failure, parseable when 200): the normalized wrapper decode, the legacy
decode, or the list-level summary for a non-200 status. -/
def detailElement (r : DetailReply) (s : Server) : ServerDetail :=
  match r with
  | DetailReply.netErr _ => summaryDetail s
  | DetailReply.resp status wrapperDec legacyDec =>
      if status = 200 then
        match wrapperDec with
        | some w =>
            if wrapperAccepted w then normalizeDetailWrapper w
            else legacyDec.getD (summaryDetail s)
        | none => legacyDec.getD (summaryDetail s)
      else summaryDetail s

/-- A detail reply on which the loop does not abort: not a transport
failure, and parseable whenever the status is 200. -/
def replyDecodes (r : DetailReply) : Bool :=
  match r with
  | DetailReply.netErr _ => false
  | DetailReply.resp status wrapperDec legacyDec =>
      status != 200 ||
      (match wrapperDec with
       | some w => wrapperAccepted w || legacyDec.isSome
       | none => legacyDec.isSome)

/-- What the registry answered a mutating request: a transport failure
or a status code. For PublishServer the response body only selects
which message is printed (main.go:759-788); it never changes the
returned error, so it is not modelled. -/
inductive HttpReply where
  | netErr (msg : String)
  | resp (status : Nat)
  deriving Repr, DecidableEq

/-- The server file as PublishServer's two parse attempts see it
(main.go:716-744): a PublishRequest whose inner server has a non-empty
name, the legacy flat ServerDetail fallback, or JSON that decodes as
neither. -/
inductive PublishFileData where
  | badJson
  | pubReq (server : ServerDetail)
  | legacy (server : ServerDetail)
  deriving Repr, DecidableEq

/-- Outcome of a PublishServer call: the returned error (`none` = nil),
how many publish requests and anonymous-auth requests were issued, the
credential file after the call, and the Authorization header of the
publish request (if one was issued). -/
structure PublishOutcome where
  err : Option String
  publishCalls : Nat
  authCalls : Nat
  store : CredFile
  sentAuth : Option String
  deriving Repr, DecidableEq

/-- The io.github. guard's error message (main.go:721 and 731). -/
def authRequiredMsg : String :=
  "authentication token is required for GitHub namespaced servers (io.github.*)"

/-- The single POST /v0/publish exchange of PublishServer
(main.go:746-791): a transport failure is the returned error; any
status, 2xx or not, is printed and the function returns nil. No
anonymous-auth request is ever issued and the request is never
retried. -/
def publishPost (token : String) (fs : CredFile) (now : Int) (reply : HttpReply) :
    PublishOutcome :=
  let auth := (makeRequestHeaders true token fs now).authorization
  match reply with
  | HttpReply.netErr msg =>
      { err := some ("publish request failed: " ++ msg), publishCalls := 1
        authCalls := 0, store := fs, sentAuth := auth }
  | HttpReply.resp _ =>
      { err := none, publishCalls := 1, authCalls := 0, store := fs, sentAuth := auth }

/-- PublishServer (main.go:708-791): parse the server file, apply the
local io.github. token guard before any request (main.go:720-722 and
730-732), then perform the single publish exchange. -/
def publishServer (file : PublishFileData) (token : String) (fs : CredFile) (now : Int)
    (reply : HttpReply) : PublishOutcome :=
  match file with
  | PublishFileData.badJson =>
      { err := some "invalid JSON in server file", publishCalls := 0, authCalls := 0
        store := fs, sentAuth := none }
  | PublishFileData.pubReq server =>
      if hasPrefixGo server.server.name "io.github." && token == "" then
        { err := some authRequiredMsg, publishCalls := 0, authCalls := 0
          store := fs, sentAuth := none }
      else publishPost token fs now reply
  | PublishFileData.legacy server =>
      if hasPrefixGo server.server.name "io.github." && token == "" then
        { err := some authRequiredMsg, publishCalls := 0, authCalls := 0
          store := fs, sentAuth := none }
      else publishPost token fs now reply

/-- The server file as UpdateServer's parse sees it (main.go:1056-1081):
a PublishRequest-style wrapper whose `server` member is unwrapped, the
direct flat ServerDetail, a wrapper whose inner server does not decode,
or JSON that does not decode at all. -/
inductive UpdateFileData where
  | badJson
  | badWrapped
  | wrapped (server : ServerDetail)
  | flat (server : ServerDetail)
  deriving Repr, DecidableEq

/-- What the registry answered the PUT update request: a transport
failure, or a status with the decoded `map[string]string` body (`none`
when the 200 body does not decode, main.go:1110-1113). -/
inductive UpdateReply where
  | netErr (msg : String)
  | resp (status : Nat) (body : Option (List (String × String)))
  deriving Repr, DecidableEq

/-- Outcome of an UpdateServer call: the returned error, how many PUT
requests were issued, the credential file after the call, and the
Authorization header of the request (if one was issued). -/
structure UpdateOutcome where
  err : Option String
  updateCalls : Nat
  store : CredFile
  sentAuth : Option String
  deriving Repr, DecidableEq

/-- The guarded tail of UpdateServer (main.go:1083-1126): the local
io.github. token guard before any request, then the single PUT; a
transport failure is the returned error; a 200 with an undecodable body
is a parse error in text mode; every other status prints and returns
nil. -/
def updateGuarded (server : ServerDetail) (token : String) (jsonOutput : Bool)
    (fs : CredFile) (now : Int) (reply : UpdateReply) : UpdateOutcome :=
  if hasPrefixGo server.server.name "io.github." && token == "" then
    { err := some authRequiredMsg, updateCalls := 0, store := fs, sentAuth := none }
  else
    let auth := (makeRequestHeaders true token fs now).authorization
    match reply with
    | UpdateReply.netErr msg =>
        { err := some ("update server request failed: " ++ msg), updateCalls := 1
          store := fs, sentAuth := auth }
    | UpdateReply.resp status body =>
        if status = 200 then
          if jsonOutput then
            { err := none, updateCalls := 1, store := fs, sentAuth := auth }
          else
            match body with
            | some _ => { err := none, updateCalls := 1, store := fs, sentAuth := auth }
            | none =>
                { err := some "failed to parse response", updateCalls := 1
                  store := fs, sentAuth := auth }
        else { err := none, updateCalls := 1, store := fs, sentAuth := auth }

/-- UpdateServer (main.go:1046-1126): parse the server file, then the
guarded update. -/
def updateServer (file : UpdateFileData) (token : String) (jsonOutput : Bool)
    (fs : CredFile) (now : Int) (reply : UpdateReply) : UpdateOutcome :=
  match file with
  | UpdateFileData.badJson =>
      { err := some "invalid JSON in server file", updateCalls := 0
        store := fs, sentAuth := none }
  | UpdateFileData.badWrapped =>
      { err := some "invalid server data in PublishRequest", updateCalls := 0
        store := fs, sentAuth := none }
  | UpdateFileData.wrapped server => updateGuarded server token jsonOutput fs now reply
  | UpdateFileData.flat server => updateGuarded server token jsonOutput fs now reply

/-- Sample entity with an ordinary (non io.github.) name, used to
evaluate the embedded commands at concrete inputs. -/
def npmServer : Server :=
  { id := "", name := "test-npm-server", description := "npm test server"
    status := "active"
    repository := { url := "https://github.com/test/server", source := "github"
                    id := "test/server" }
    versionDetail := { version := "1.0.0", releaseDate := "", isLatest := true } }

/-- Sample detail payload around npmServer. -/
def npmServerDetail : ServerDetail :=
  { server := npmServer, packages := [], remotes := [] }

/-- Sample detail payload whose server name is in the io.github.
namespace. -/
def githubServerDetail : ServerDetail :=
  { server := { npmServer with name := "io.github.test/server" }
    packages := [], remotes := [] }

/-- Sample list elements for the detailed-listing loop. -/
def serverA : Server :=
  { id := "a", name := "io.test/server1", description := "", status := ""
    repository := { url := "", source := "", id := "" }
    versionDetail := { version := "", releaseDate := "", isLatest := false } }

/-- Second sample list element. -/
def serverB : Server :=
  { id := "b", name := "io.test/server2", description := "", status := ""
    repository := { url := "", source := "", id := "" }
    versionDetail := { version := "", releaseDate := "", isLatest := false } }

/-- A decoded wrapper detail payload for serverB. -/
def detailWrapB : ServerDetailWrapper :=
  { server := { server := serverB, packages := [], remotes := [] }
    registryMeta := none }

/-- A fetch where the first element's detail request fails at the
transport level and every other element answers. -/
def failFirstFetch : String → DetailReply := fun i =>
  if i = "a" then DetailReply.netErr "connection refused"
  else DetailReply.resp 200 (some detailWrapB) none

/-- A fetch where the first element answers 404 and the second answers
200 with a wrapper-shape body. -/
def mixedFetch : String → DetailReply := fun i =>
  if i = "a" then DetailReply.resp 404 none none
  else DetailReply.resp 200 (some detailWrapB) none

/-- The credential stored before the interrupted save of the
non-atomicity counterexample. -/
def oldCred : AuthConfig :=
  { token := "old-token", method := "anonymous", domain := "", expiresAt := 0 }

/-- The credential the interrupted save was writing. -/
def newCred : AuthConfig :=
  { token := "new-token", method := "anonymous", domain := "", expiresAt := 0 }

/-- Helper: a detail fetch that answered produces exactly its expected
element. -/
theorem detailStep_ok (fetch : String → DetailReply) (s : Server)
    (hs : replyDecodes (fetch s.id) = true) :
    detailStep fetch s = Except.ok (detailElement (fetch s.id) s) := by
  cases hfe : fetch s.id with
  | netErr msg => rw [hfe] at hs; simp [replyDecodes] at hs
  | resp status wrapperDec legacyDec =>
      rw [hfe] at hs
      by_cases h200 : status = 200
      · subst h200
        cases wrapperDec with
        | some w =>
            cases hacc : wrapperAccepted w with
            | true => simp [detailStep, detailElement, hfe, hacc]
            | false =>
                simp only [replyDecodes, bne_self_eq_false, Bool.false_or, hacc] at hs
                cases hleg : legacyDec with
                | none => rw [hleg] at hs; simp at hs
                | some d => simp [detailStep, detailElement, hfe, hacc, hleg]
        | none =>
            simp only [replyDecodes, bne_self_eq_false, Bool.false_or] at hs
            cases hleg : legacyDec with
            | none => rw [hleg] at hs; simp at hs
            | some d => simp [detailStep, detailElement, hfe, hleg]
      · simp [detailStep, detailElement, hfe, h200]

/-- C1: loadAuthConfig applies no 60-second expiration buffer: a stored
credential whose expiry is only 30 seconds away (expiresAt = now + 30,
here now = 1000000) is returned unchanged with its non-empty token,
where the claim, the spec and the repository's own tests
(TestAuthConfig, token expiration buffer) demand the zero-value
credential. -/
theorem loadAuthConfig_no_expiry_buffer :
    loadAuthConfig
        (CredFile.stored
          { token := "soon-token", method := "anonymous", domain := ""
            expiresAt := 1000030 }) 1000000
      = Except.ok
          { token := "soon-token", method := "anonymous", domain := ""
            expiresAt := 1000030 } := by
  decide

/-- C2: PublishServer has no auth-fallback retry: with no explicit
token and no stored credential, a publish whose first response is the
422 missing-authorization validation error issues no anonymous-auth
request, does not retry, and returns nil with the error only printed
(one publish request total, zero auth requests, store untouched). -/
theorem publishServer_no_auto_retry :
    publishServer (PublishFileData.legacy npmServerDetail) "" CredFile.absent 0
        (HttpReply.resp 422)
      = { err := none, publishCalls := 1, authCalls := 0, store := CredFile.absent
          sentAuth := none } := by
  decide

/-- C3: wrapper-shape normalization adopts the metadata map's "id"
string exactly when the inner entity's top-level id is empty, in both
the list path (normalizeWrapper) and the detail path
(normalizeDetailWrapper); an already non-empty top-level id is never
overwritten, and the legacy flat path never touches the entity at
all. -/
theorem normalize_id_recovery (w : ServerWrapper) (d : ServerDetailWrapper)
    (m md : List (String × MetaVal)) (s sd : String) :
    (w.registryMeta = some m → metaLookup m "id" = some (MetaVal.str s) →
      w.server.id = "" → (normalizeWrapper w).id = s) ∧
    (w.server.id ≠ "" → normalizeWrapper w = w.server) ∧
    (d.registryMeta = some md → metaLookup md "id" = some (MetaVal.str sd) →
      d.server.server.id = "" → (normalizeDetailWrapper d).server.id = sd) ∧
    (d.server.server.id ≠ "" → normalizeDetailWrapper d = d.server) ∧
    (∀ x : Server, normalizeLegacy x = x) := by
  refine ⟨?_, ?_, ?_, ?_, fun _ => rfl⟩
  · intro hmeta hid hempty
    simp [normalizeWrapper, hempty, hmeta, hid]
  · intro hne
    simp [normalizeWrapper, hne]
  · intro hmeta hid hempty
    simp [normalizeDetailWrapper, hempty, hmeta, hid]
  · intro hne
    simp [normalizeDetailWrapper, hne]

/-- C3 witness: a wrapper element with an empty inner id and the
metadata-embedded id adopts it, and one with a populated id is left
unchanged. -/
theorem normalize_id_recovery_wit :
    (normalizeWrapper
        { server := npmServer
          registryMeta :=
            some [("id", MetaVal.str "58031f85-792f-4c22-9d76-b4dd01e287aa")] }).id
      = "58031f85-792f-4c22-9d76-b4dd01e287aa" ∧
    normalizeWrapper
        { server := serverA
          registryMeta :=
            some [("id", MetaVal.str "58031f85-792f-4c22-9d76-b4dd01e287aa")] }
      = serverA :=
  ⟨(normalize_id_recovery
      { server := npmServer
        registryMeta :=
          some [("id", MetaVal.str "58031f85-792f-4c22-9d76-b4dd01e287aa")] }
      detailWrapB [("id", MetaVal.str "58031f85-792f-4c22-9d76-b4dd01e287aa")] []
      "58031f85-792f-4c22-9d76-b4dd01e287aa" "").1 rfl rfl rfl,
   (normalize_id_recovery
      { server := serverA
        registryMeta :=
          some [("id", MetaVal.str "58031f85-792f-4c22-9d76-b4dd01e287aa")] }
      detailWrapB [("id", MetaVal.str "58031f85-792f-4c22-9d76-b4dd01e287aa")] []
      "58031f85-792f-4c22-9d76-b4dd01e287aa" "").2.1 (by decide)⟩

/-- C4: loadAuthConfig does return an error for an unparseable
credential file, but makeRequest discards it (`config, _`) and issues
the request anyway with no Authorization header, instead of propagating
the error: the headers of a GET built over a corrupt credential file
and an empty explicit token carry no Authorization and no error is
surfaced. -/
theorem makeRequest_swallows_load_error :
    loadAuthConfig CredFile.corrupt 0 = Except.error "failed to unmarshal config" ∧
    makeRequestHeaders false "" CredFile.corrupt 0
      = { contentType := none, authorization := none, userAgent := "mcpx-cli/1.0" } := by
  decide

/-- C5 counterexample: saveAuthConfig writes the config path in place
with one os.WriteFile, so a save interrupted partway leaves a corrupt
file: after an interrupted overwrite of a previously stored valid
credential, load does not observe that previous credential. -/
theorem saveAuthConfig_not_atomic_cex :
    saveAuthConfig (CredFile.stored oldCred) newCred true = CredFile.corrupt ∧
    loadAuthConfig (saveAuthConfig (CredFile.stored oldCred) newCred true) 0
      ≠ Except.ok oldCred := by
  decide

/-- C5 amended: saveAuthConfig creates the credential file with
owner-only 0600 permission and an uninterrupted save stores exactly the
given credential, but the overwrite is in place, not write-then-rename:
any interrupted save leaves an unparseable file that load reports as an
error rather than the previously stored credential. -/
theorem saveAuthConfig_mode_and_inplace :
    configFileMode = 0o600 ∧
    (∀ (fs : CredFile) (c : AuthConfig), saveAuthConfig fs c false = CredFile.stored c) ∧
    (∀ (fs : CredFile) (c : AuthConfig) (now : Int),
      loadAuthConfig (saveAuthConfig fs c true) now
        = Except.error "failed to unmarshal config") :=
  ⟨rfl, fun _ _ => rfl, fun _ _ _ => rfl⟩

/-- C6 counterexample: a transport-level failure of one element's
detail fetch aborts the whole detailed listing with an error, even
though the remaining element on its own would be fetched and returned:
the batch is not resilient to a failed fetch. -/
theorem detailLoop_aborts_on_transport_error :
    detailLoop failFirstFetch [serverA, serverB]
      = Except.error "failed to get details for server a: connection refused" ∧
    detailLoop failFirstFetch [serverB] = Except.ok [detailWrapB.server] := by
  decide

/-- C6 amended: when every detail fetch answers (no transport failure,
and a parseable body whenever the status is 200), the detailed listing
succeeds and maps each element to its expected detail, and an element
whose fetch answered with a non-200 status degrades to its list-level
summary; but a transport failure or an unparseable 200 body aborts the
whole batch, as the counterexample shows. -/
theorem detailLoop_degrades_per_element (fetch : String → DetailReply)
    (servers : List Server)
    (h : ∀ s ∈ servers, replyDecodes (fetch s.id) = true) :
    detailLoop fetch servers
      = Except.ok (servers.map (fun s => detailElement (fetch s.id) s)) ∧
    (∀ (s : Server) (status : Nat) (wd : Option ServerDetailWrapper)
       (ld : Option ServerDetail),
      fetch s.id = DetailReply.resp status wd ld → status ≠ 200 →
        detailElement (fetch s.id) s = summaryDetail s) := by
  constructor
  · induction servers with
    | nil => rfl
    | cons s rest ih =>
        have hs : replyDecodes (fetch s.id) = true := h s (List.mem_cons_self s rest)
        have ih' := ih (fun x hx => h x (List.mem_cons_of_mem s hx))
        simp only [detailLoop, detailStep_ok fetch s hs, ih', List.map_cons]
  · intro s status wd ld hfe hstat
    rw [hfe]
    simp [detailElement, hstat]

/-- C6 witness: a two-element listing where the first detail fetch
answers 404 and the second answers 200 with a wrapper body: the batch
succeeds, the first element degrades to its summary and the second
keeps its fetched detail. -/
theorem detailLoop_degrades_per_element_wit :
    (∀ s ∈ [serverA, serverB], replyDecodes (mixedFetch s.id) = true) ∧
    detailLoop mixedFetch [serverA, serverB]
      = Except.ok ([serverA, serverB].map (fun s => detailElement (mixedFetch s.id) s)) :=
  ⟨by decide, (detailLoop_degrades_per_element mixedFetch [serverA, serverB] (by decide)).1⟩

/-- C7: saving any credential whose expiry is zero or at least 60
seconds in the future and loading it back returns exactly that
credential with no error. -/
theorem save_load_roundtrip (fs : CredFile) (c : AuthConfig) (now : Int)
    (h : c.expiresAt = 0 ∨ now + 60 ≤ c.expiresAt) :
    loadAuthConfig (saveAuthConfig fs c false) now = Except.ok c := by
  show (if c.expiresAt > 0 ∧ now > c.expiresAt then Except.ok AuthConfig.zero
        else Except.ok c) = Except.ok c
  rw [if_neg]
  rintro ⟨hpos, hlt⟩
  rcases h with h0 | hfar
  · omega
  · omega

/-- C7 witness: the round trip at a concrete never-expiring
credential. -/
theorem save_load_roundtrip_wit :
    loadAuthConfig (saveAuthConfig CredFile.absent oldCred false) 12345
      = Except.ok oldCred :=
  save_load_roundtrip CredFile.absent oldCred 12345 (Or.inl rfl)

/-- C8 counterexample: login with the declared but unimplemented
github-oauth (and github-oidc) method returns nil, reporting success
while storing no credential, instead of a "not supported" error. -/
theorem login_stub_reports_success :
    login AuthMethodGitHubOAuth CredFile.absent 0 (AnonAuthReply.resp 200 none)
      = (none, CredFile.absent) ∧
    login AuthMethodGitHubOIDC CredFile.absent 0 (AnonAuthReply.resp 200 none)
      = (none, CredFile.absent) := by
  decide

/-- C8 amended: login with github-oauth or github-oidc only prints a
"not yet implemented" notice and returns success with the credential
store untouched; a descriptive "unsupported authentication method"
error is returned only for a method id outside the switch (anything but
the two stubs and anonymous, e.g. dns or http). -/
theorem login_dispatch (fs : CredFile) (now : Int) (reply : AnonAuthReply) (m : String)
    (hm1 : m ≠ AuthMethodGitHubOAuth) (hm2 : m ≠ AuthMethodGitHubOIDC)
    (hm3 : m ≠ AuthMethodAnonymous) :
    login AuthMethodGitHubOAuth fs now reply = (none, fs) ∧
    login AuthMethodGitHubOIDC fs now reply = (none, fs) ∧
    login m fs now reply = (some ("unsupported authentication method: " ++ m), fs) := by
  refine ⟨rfl, rfl, ?_⟩
  simp only [login]
  rw [if_neg hm1, if_neg hm2, if_neg hm3]

/-- C8 witness: the amended dispatch at the concrete method id dns. -/
theorem login_dispatch_wit :
    login AuthMethodGitHubOAuth CredFile.absent 0 (AnonAuthReply.resp 200 none)
      = (none, CredFile.absent) ∧
    login "dns" CredFile.absent 0 (AnonAuthReply.resp 200 none)
      = (some "unsupported authentication method: dns", CredFile.absent) :=
  ⟨(login_dispatch CredFile.absent 0 (AnonAuthReply.resp 200 none) "dns"
      (by decide) (by decide) (by decide)).1,
   (login_dispatch CredFile.absent 0 (AnonAuthReply.resp 200 none) "dns"
      (by decide) (by decide) (by decide)).2.2⟩

/-- C9: clearAuthConfig succeeds when the file is already absent,
clearing twice is a no-op the second time (no error), and after a clear
the store loads as the zero-value credential. -/
theorem clear_idempotent (fs : CredFile) (now : Int) :
    (clearAuthConfig CredFile.absent).2 = none ∧
    (clearAuthConfig fs).1 = CredFile.absent ∧
    (clearAuthConfig (clearAuthConfig fs).1).2 = none ∧
    loadAuthConfig (clearAuthConfig fs).1 now = Except.ok AuthConfig.zero := by
  cases fs <;> exact ⟨rfl, rfl, rfl, rfl⟩

/-- C10: publishing or updating a server whose name starts with
io.github. with an empty explicit token fails locally with the
authentication-required error before any HTTP request: zero requests
are issued and the credential store is unchanged, for both parse shapes
of each command. -/
theorem github_namespace_guard (server : ServerDetail) (fs : CredFile) (now : Int)
    (preply : HttpReply) (ureply : UpdateReply) (jsonOutput : Bool)
    (h : hasPrefixGo server.server.name "io.github." = true) :
    publishServer (PublishFileData.pubReq server) "" fs now preply
      = { err := some authRequiredMsg, publishCalls := 0, authCalls := 0
          store := fs, sentAuth := none } ∧
    publishServer (PublishFileData.legacy server) "" fs now preply
      = { err := some authRequiredMsg, publishCalls := 0, authCalls := 0
          store := fs, sentAuth := none } ∧
    updateServer (UpdateFileData.wrapped server) "" jsonOutput fs now ureply
      = { err := some authRequiredMsg, updateCalls := 0, store := fs
          sentAuth := none } ∧
    updateServer (UpdateFileData.flat server) "" jsonOutput fs now ureply
      = { err := some authRequiredMsg, updateCalls := 0, store := fs
          sentAuth := none } := by
  refine ⟨?_, ?_, ?_, ?_⟩ <;>
    simp [publishServer, updateServer, updateGuarded, h]

/-- C10 witness: the guard at a concrete io.github. server. -/
theorem github_namespace_guard_wit :
    hasPrefixGo githubServerDetail.server.name "io.github." = true ∧
    publishServer (PublishFileData.pubReq githubServerDetail) "" CredFile.absent 0
        (HttpReply.resp 422)
      = { err := some authRequiredMsg, publishCalls := 0, authCalls := 0
          store := CredFile.absent, sentAuth := none } :=
  ⟨by decide,
   (github_namespace_guard githubServerDetail CredFile.absent 0 (HttpReply.resp 422)
      (UpdateReply.resp 422 none) false (by decide)).1⟩

end Mcpx
